import Mathlib

/-!
Verification development for the Chef recipe-generation application.

The embedding models the two source modules:
* the Generation Gateway (`generateRecipeFromInput`, `generateDishImage`,
  `generateTTS`): request assembly from multi-modal input, credential
  checking, and response-payload extraction;
* the Application State Controller (`handleCapture`, `handleError`,
  `saveToHistory`): the screen state machine, error classification and
  History persistence.

External effects are made explicit: the environment-sourced API key, the
fresh id and the current time are parameters; the remote provider call is a
parameter holding its outcome; client-local storage is a field of the
controller state.  JavaScript truthiness of optional strings (`undefined`
and `""` are both falsy) is modelled by `optTruthy`.
-/

/-- `listHasPre pat s`: the character list `pat` occurs at the front of `s`
(models JavaScript `String.prototype.startsWith` on the decoded list). -/
def listHasPre : List Char → List Char → Bool
  | [], _ => true
  | _ :: _, [] => false
  | p :: ps, c :: cs => p == c && listHasPre ps cs

/-- `listHasSub pat s`: `pat` occurs contiguously somewhere inside `s`
(models JavaScript `String.prototype.includes` on the decoded list). -/
def listHasSub : List Char → List Char → Bool
  | pat, [] => pat.isEmpty
  | pat, c :: cs => listHasPre pat (c :: cs) || listHasSub pat cs

/-- `strIncludes s pat`: `pat` is a contiguous substring of `s`
(JavaScript `s.includes(pat)`). -/
def strIncludes (s pat : String) : Bool := listHasSub pat.data s.data

/-- `strStarts s pat`: `pat` is a prefix of `s` (JavaScript `s.startsWith(pat)`). -/
def strStarts (s pat : String) : Bool := listHasPre pat.data s.data

/-- JavaScript truthiness of an optional string: `undefined` and the empty
string are falsy, every other string is truthy. -/
def optTruthy : Option String → Bool
  | some s => s != ""
  | none => false

/-- An inline binary payload of a content part (`inlineData` in the SDK):
a MIME type and base64 data. -/
structure InlineData where
  mimeType : String
  data : String
  deriving DecidableEq, Repr

/-- One content part of a provider request or response: an optional text
and an optional inline payload (the SDK `Part` shape, restricted to the
fields this program uses). -/
structure RPart where
  text : Option String := none
  inlineData : Option InlineData := none
  deriving DecidableEq, Repr

/-- An image content part as pushed by `generateRecipeFromInput`:
inline data tagged `image/jpeg`. -/
def imagePart (img : String) : RPart :=
  { inlineData := some { mimeType := "image/jpeg", data := img } }

/-- The MIME type used for the audio part: the supplied type, defaulting to
`audio/wav` when absent or falsy (`audioMimeType || 'audio/wav'`). -/
def audioMimeOf (m : Option String) : String :=
  if optTruthy m then m.getD "audio/wav" else "audio/wav"

/-- The constraint directive of `generateRecipeFromInput`: when the
constraint list is non-empty, a directive enumerating the constraints and
mandating strict adherence; otherwise the empty string. -/
def constraintText (constraints : List String) : String :=
  if constraints.length > 0 then
    "CRITICAL CONSTRAINTS: The user has the following limitations: " ++
      String.intercalate ", " constraints ++
      ". You MUST strictly adhere to these. Do not use equipment that is restricted (e.g. if \x27No Stove\x27, use microwave, oven, or raw prep only)."
  else ""

/-- The single derived text of the request, chosen by the priority in
`generateRecipeFromInput`: an explicit text prompt, else the default
instruction when no audio is present, else the constraint text alone. -/
def derivedText (audioBase64 : Option String) (textPrompt : Option String)
    (constraints : List String) : String :=
  if optTruthy textPrompt then
    "User text request: \"" ++ textPrompt.getD "" ++ "\". " ++
      constraintText constraints ++ " Create a recipe based on this."
  else if !optTruthy audioBase64 then
    "I have these ingredients. " ++ constraintText constraints ++
      " Make me something delicious."
  else
    constraintText constraints

/-- The fixed final instruction part of every recipe request. -/
def finalPart : RPart :=
  { text := some "Analyze the ingredients and the user request. Create a recipe." }

/-- The ordered content parts assembled by `generateRecipeFromInput`:
one part per image, the audio part when audio is present, the derived text
part, then the final instruction. -/
def buildParts (images : List String) (audioBase64 : Option String)
    (audioMimeType : Option String) (textPrompt : Option String)
    (constraints : List String) : List RPart :=
  images.map imagePart ++
    (if optTruthy audioBase64 then
      [{ inlineData := some { mimeType := audioMimeOf audioMimeType,
                              data := audioBase64.getD "" } }]
    else []) ++
    [{ text := some (derivedText audioBase64 textPrompt constraints) }, finalPart]

/-- One step of a Recipe.  Modelled from the spec: the Step record of §3
(the source file `types.ts` is not under `src/`); the field set and which
fields are required match the response schema declared in the gateway
(`instruction` required, `tip` and `duration` optional). -/
structure Step where
  instruction : String
  tip : Option String := none
  duration : Option String := none
  deriving DecidableEq, Repr

/-- The recipe object as parsed from the provider's JSON response, before
enrichment.  Field set and required-ness follow the gateway's declared
response schema (`title`, `description`, `difficulty`, `ingredientsFound`,
`steps` required; the rest optional).  `difficulty` is a string: the schema
constrains it to the four enum values but the client performs no
validation of its own. -/
structure RawRecipe where
  title : String
  description : String
  cuisineStyle : Option String := none
  difficulty : String
  totalTime : Option String := none
  ingredientsFound : List String
  pantryItemsNeeded : Option (List String) := none
  steps : List Step
  deriving DecidableEq, Repr

/-- The completed Recipe.  Modelled from the spec: the Recipe entity of §3
(the source file `types.ts` is not under `src/`); it is the raw parsed
object extended with the three fields the gateway adds on success:
a fresh `id`, the `createdAt` timestamp, and the caller's `constraints`. -/
structure Recipe where
  title : String
  description : String
  cuisineStyle : Option String := none
  difficulty : String
  totalTime : Option String := none
  ingredientsFound : List String
  pantryItemsNeeded : Option (List String) := none
  steps : List Step
  id : String
  createdAt : Nat
  constraints : List String
  deriving DecidableEq, Repr

/-- The enrichment performed by `generateRecipeFromInput` on success:
spread of the raw object plus `id`, `createdAt` and `constraints`.
The fresh id and the current time are explicit parameters standing for
`crypto.randomUUID()` / `Date.now()`. -/
def enrich (raw : RawRecipe) (freshId : String) (now : Nat)
    (constraints : List String) : Recipe :=
  { title := raw.title, description := raw.description,
    cuisineStyle := raw.cuisineStyle, difficulty := raw.difficulty,
    totalTime := raw.totalTime, ingredientsFound := raw.ingredientsFound,
    pantryItemsNeeded := raw.pantryItemsNeeded, steps := raw.steps,
    id := freshId, createdAt := now, constraints := constraints }

/-- One candidate of a provider response; `parts` is `none` when the
candidate has no `content` or its content has no `parts`
(the code reads `candidates?.[0]?.content?.parts`). -/
structure Candidate where
  parts : Option (List RPart) := none
  deriving DecidableEq, Repr

/-- A provider response, restricted to the fields this program reads:
the `text` accessor (recipe generation) and the candidate list
(image and speech extraction). -/
structure GenResponse where
  text : Option String := none
  candidates : Option (List Candidate) := none
  deriving DecidableEq, Repr

/-- A provider request: the ordered content parts sent. -/
structure ProviderRequest where
  parts : List RPart
  deriving DecidableEq, Repr

/-- Outcome of one gateway operation: the provider request that was sent
(`none` when the operation failed before any network call) and the result
or propagated error. -/
structure GatewayCall (α : Type) where
  sent : Option ProviderRequest
  result : Except String α
  deriving Repr

/-- `process.env.API_KEY || ''`: the environment-sourced key, empty when
the variable is absent. -/
def getApiKey : Option String → String
  | some s => s
  | none => ""

/-- The recipe-generation gateway operation.  `jsonParse` stands for the
platform `JSON.parse` specialised to this response (errors are its thrown
messages, propagated unchanged); `apiKey` is the environment credential;
`freshId`/`now` stand for `crypto.randomUUID()`/`Date.now()`; `provider`
holds the outcome of the remote call. -/
def generateRecipeFromInput (jsonParse : String → Except String RawRecipe)
    (apiKey : Option String) (freshId : String) (now : Nat)
    (images : List String) (audioBase64 : Option String)
    (audioMimeType : Option String) (textPrompt : Option String)
    (constraints : List String)
    (provider : Except String GenResponse) : GatewayCall Recipe :=
  if getApiKey apiKey = "" then ⟨none, .error "API Key missing"⟩
  else
    let req : ProviderRequest :=
      ⟨buildParts images audioBase64 audioMimeType textPrompt constraints⟩
    match provider with
    | .error e => ⟨some req, .error e⟩
    | .ok resp =>
      if !optTruthy resp.text then ⟨some req, .error "No response generated"⟩
      else
        match jsonParse (resp.text.getD "") with
        | .error e => ⟨some req, .error e⟩
        | .ok raw => ⟨some req, .ok (enrich raw freshId now constraints)⟩

/-- The loop of `generateDishImage`: the first part whose `inlineData`
exists and has truthy `data`. -/
def firstInlineData : List RPart → Option String
  | [] => none
  | p :: ps =>
    match p.inlineData with
    | some d => if d.data != "" then some d.data else firstInlineData ps
    | none => firstInlineData ps

/-- The dish-image gateway operation: builds the fixed photographic prompt
and returns the first inline payload among the first candidate's parts. -/
def generateDishImage (apiKey : Option String) (title description : String)
    (provider : Except String GenResponse) : GatewayCall String :=
  if getApiKey apiKey = "" then ⟨none, .error "API Key missing"⟩
  else
    let req : ProviderRequest :=
      ⟨[{ text := some ("A beautiful, appetizing, professional food photo of " ++
          title ++ ". " ++ description ++ ". Cinematic lighting, 4k.") }]⟩
    match provider with
    | .error e => ⟨some req, .error e⟩
    | .ok resp =>
      match firstInlineData (((resp.candidates.bind List.head?).bind
          Candidate.parts).getD []) with
      | some d => ⟨some req, .ok d⟩
      | none => ⟨some req, .error "No image data found in response"⟩

/-- The speech gateway operation (`generateTTS`): reads
`candidates?.[0]?.content?.parts?.[0]?.inlineData?.data` — only the first
part of the first candidate — and fails when that value is missing or
falsy. -/
def generateTTS (apiKey : Option String) (txt : String)
    (provider : Except String GenResponse) : GatewayCall String :=
  if getApiKey apiKey = "" then ⟨none, .error "API Key missing"⟩
  else
    let req : ProviderRequest := ⟨[{ text := some txt }]⟩
    match provider with
    | .error e => ⟨some req, .error e⟩
    | .ok resp =>
      match ((resp.candidates.bind List.head?).bind
          (fun c => c.parts.bind List.head?)).bind
          (fun p => p.inlineData.map InlineData.data) with
      | some d => if d != "" then ⟨some req, .ok d⟩
                  else ⟨some req, .error "No audio generated"⟩
      | none => ⟨some req, .error "No audio generated"⟩

/-- JSON values, as stored in client-local storage.  Persistence is modelled
at the JSON-value level: the textual `JSON.stringify`/`JSON.parse` pair is
the platform's bijection between values and their texts and is outside this
repository. -/
inductive Json where
  | str : String → Json
  | num : Nat → Json
  | arr : List Json → Json
  | obj : List (String × Json) → Json
  deriving Repr

/-- Property access on a JSON object: the value of the first field named
`key`, `none` for a missing field or a non-object. -/
def findField : List (String × Json) → String → Option Json
  | [], _ => none
  | (k, v) :: fs, key => if k = key then some v else findField fs key

/-- `jGet j key`: read field `key` of JSON value `j`. -/
def jGet : Json → String → Option Json
  | .obj fields, key => findField fields key
  | _, _ => none

/-- Serialisation of an optional string field: `JSON.stringify` omits
fields that are `undefined`. -/
def encodeOptField (key : String) : Option String → List (String × Json)
  | some s => [(key, .str s)]
  | none => []

/-- Serialisation of a Step. -/
def encodeStep (s : Step) : Json :=
  .obj ([("instruction", .str s.instruction)] ++
    encodeOptField "tip" s.tip ++ encodeOptField "duration" s.duration)

/-- Serialisation of a string list. -/
def encodeStrList (l : List String) : Json := .arr (l.map .str)

/-- Serialisation of a Recipe, field for field; optional fields are omitted
when absent, as `JSON.stringify` does for `undefined` properties. -/
def encodeRecipe (r : Recipe) : Json :=
  .obj ([("title", .str r.title), ("description", .str r.description)] ++
    encodeOptField "cuisineStyle" r.cuisineStyle ++
    [("difficulty", .str r.difficulty)] ++
    encodeOptField "totalTime" r.totalTime ++
    [("ingredientsFound", encodeStrList r.ingredientsFound)] ++
    (match r.pantryItemsNeeded with
     | some l => [("pantryItemsNeeded", encodeStrList l)]
     | none => []) ++
    [("steps", .arr (r.steps.map encodeStep)),
     ("id", .str r.id),
     ("createdAt", .num r.createdAt),
     ("constraints", encodeStrList r.constraints)])

/-- Serialisation of the History list, newest first. -/
def encodeHistory (h : List Recipe) : Json := .arr (h.map encodeRecipe)

/-- Read an optional JSON value as a string. -/
def asStr : Option Json → Option String
  | some (.str s) => some s
  | _ => none

/-- Read an optional JSON value as a number. -/
def asNum : Option Json → Option Nat
  | some (.num n) => some n
  | _ => none

/-- Traverse a list with a fallible reader, failing when any element
fails (the effect of `Array.prototype.map` under a strict reader). -/
def optMapList (f : α → Option β) : List α → Option (List β)
  | [] => some []
  | x :: xs =>
    match f x with
    | none => none
    | some y =>
      match optMapList f xs with
      | none => none
      | some ys => some (y :: ys)

/-- Read a JSON value back as a string list. -/
def decodeStrList : Json → Option (List String)
  | .arr l => optMapList (fun j => match j with | .str s => some s | _ => none) l
  | _ => none

/-- Read an optional string-list field back: an absent field is `none`,
a present field must be a string list. -/
def decodeOptStrList : Option Json → Option (Option (List String))
  | none => some none
  | some j => (decodeStrList j).map some

/-- Read a JSON value back as a Step. -/
def decodeStep (j : Json) : Option Step := do
  let ins ← asStr (jGet j "instruction")
  pure { instruction := ins, tip := asStr (jGet j "tip"),
         duration := asStr (jGet j "duration") }

/-- Read a JSON value back as a Recipe, field for field. -/
def decodeRecipe (j : Json) : Option Recipe := do
  let title ← asStr (jGet j "title")
  let description ← asStr (jGet j "description")
  let difficulty ← asStr (jGet j "difficulty")
  let ingredientsFound ← (jGet j "ingredientsFound").bind decodeStrList
  let pantryItemsNeeded ← decodeOptStrList (jGet j "pantryItemsNeeded")
  let steps ← match jGet j "steps" with
              | some (.arr l) => optMapList decodeStep l
              | _ => none
  let id ← asStr (jGet j "id")
  let createdAt ← asNum (jGet j "createdAt")
  let constraints ← (jGet j "constraints").bind decodeStrList
  pure { title := title, description := description,
         cuisineStyle := asStr (jGet j "cuisineStyle"),
         difficulty := difficulty,
         totalTime := asStr (jGet j "totalTime"),
         ingredientsFound := ingredientsFound,
         pantryItemsNeeded := pantryItemsNeeded, steps := steps,
         id := id, createdAt := createdAt, constraints := constraints }

/-- Read the persisted History back. -/
def decodeHistory : Json → Option (List Recipe)
  | .arr l => optMapList decodeRecipe l
  | _ => none

/-- The screen states of the application state machine.  Modelled from the
spec: the `AppState` enum of §4.2 lives in `types.ts`, which is not under
`src/`; the constructor names are those referenced by the controller. -/
inductive AppState where
  | LANDING
  | ABOUT
  | COOKBOOK
  | IDLE
  | RECORDING
  | PROCESSING
  | ERROR
  | RECIPE_VIEW
  deriving DecidableEq, Repr

/-- The controller's state: current screen, current recipe, in-memory
History, current error title and details, and the value persisted in
client-local storage under the fixed History key (`none` when the key is
absent). -/
structure AppS where
  appState : AppState
  recipe : Option Recipe
  history : List Recipe
  error : Option String
  errorDetails : Option String
  persisted : Option Json
  deriving Repr

/-- The error classifier of `handleError`: substring tests on the failure
message applied in program order, first match wins, producing the
user-facing title and detail strings. -/
def classify (msg : String) : String × String :=
  if strIncludes msg "API Key" then
    ("Configuration Error",
     "The API Key is missing. Please check the environment configuration.")
  else if strIncludes msg "No response generated" ||
      strIncludes msg "Candidate was blocked" then
    ("Inspiration blocked",
     "The Muse couldn\x27t understand the request or it was flagged. Try different wording.")
  else if strIncludes msg "fetch" || strIncludes msg "network" then
    ("Connection Lost",
     "Please check your internet connection and try again.")
  else if strIncludes msg "JSON" then
    ("Creative Confusion",
     "The Muse hallucinated an invalid format. Trying again usually fixes this.")
  else
    ("The Muse was silent.",
     "We couldn\x27t generate a recipe. Please try again.")

/-- The failure transition: store the classified title and details and move
to the error screen.  Nothing else in the state is touched. -/
def handleError (st : AppS) (msg : String) : AppS :=
  { st with error := some (classify msg).1,
            errorDetails := some (classify msg).2,
            appState := AppState.ERROR }

/-- `saveToHistory`: prepend the new recipe to the in-memory History and
rewrite the persisted copy in full. -/
def saveToHistory (st : AppS) (newRecipe : Recipe) : AppS :=
  let newHistory := newRecipe :: st.history
  { st with history := newHistory,
            persisted := some (encodeHistory newHistory) }

/-- `handleCapture`: enter Processing and clear the error, then on success
store the recipe, save it to History and show it; on failure classify the
error.  The provider outcome of the generation is the `result` argument. -/
def handleCapture (st : AppS) (result : Except String Recipe) : AppS :=
  let st1 : AppS := { st with appState := AppState.PROCESSING,
                              error := none, errorDetails := none }
  match result with
  | .ok r =>
    let st2 : AppS := { st1 with recipe := some r }
    let st3 : AppS := saveToHistory st2 r
    { st3 with appState := AppState.RECIPE_VIEW }
  | .error e => handleError st1 e

/-- The startup load of History: absent or undecodable storage falls back
to the empty sequence. -/
def loadHistory (persisted : Option Json) : List Recipe :=
  match persisted with
  | none => []
  | some j => (decodeHistory j).getD []

/-- The ordered error categories as the spec states them: substring
predicate, user-facing title, fixed detail string. -/
def specErrorCategories : List ((String → Bool) × String × String) :=
  [(fun m => strIncludes m "API Key",
    "Configuration Error",
    "The API Key is missing. Please check the environment configuration."),
   (fun m => strIncludes m "No response generated" ||
             strIncludes m "Candidate was blocked",
    "Inspiration blocked",
    "The Muse couldn\x27t understand the request or it was flagged. Try different wording."),
   (fun m => strIncludes m "fetch" || strIncludes m "network",
    "Connection Lost",
    "Please check your internet connection and try again."),
   (fun m => strIncludes m "JSON",
    "Creative Confusion",
    "The Muse hallucinated an invalid format. Trying again usually fixes this.")]

/-- The generic fallback category. -/
def specFallback : String × String :=
  ("The Muse was silent.", "We couldn\x27t generate a recipe. Please try again.")

/-- First-match-wins selection over an ordered category list. -/
def firstMatching (d : String × String) :
    List ((String → Bool) × String × String) → String → String × String
  | [], _ => d
  | c :: cs, m => if c.1 m then c.2 else firstMatching d cs m

/-- The classifier as the spec describes it: the first matching category of
the ordered list, else the fallback. -/
def classifySpec (m : String) : String × String :=
  firstMatching specFallback specErrorCategories m

/-- A plain-text content part with no inline payload. -/
def c7TextPart : RPart := { text := some "intro" }

/-- A content part carrying an audio payload. -/
def c7AudioPart : RPart :=
  { inlineData := some { mimeType := "audio/wav", data := "QUJD" } }

/-- A candidate whose first part is plain text and whose second part
carries the audio payload. -/
def c7Candidate : Candidate := { parts := some [c7TextPart, c7AudioPart] }

/-- A provider response in which the audio payload sits in the second
content part of the first candidate. -/
def c7Response : GenResponse := { candidates := some [c7Candidate] }

/-- A concrete parsed recipe object for the C8 witness. -/
def c8Raw : RawRecipe :=
  { title := "T", description := "D", difficulty := "Easy",
    ingredientsFound := ["egg"], steps := [{ instruction := "Mix" }] }

example : buildParts [] none none none [] =
    [{ text := some "I have these ingredients.  Make me something delicious." }, finalPart] := by
  decide
example : strIncludes "abcde" "cd" = true := by decide
example : strIncludes "abcde" "ce" = false := by decide
example : strStarts "abcde" "ab" = true := by decide
example : strStarts "abcde" "bc" = false := by decide

/-- A pattern occurs at the front of itself followed by anything. -/
theorem listHasPre_self_append (p rest : List Char) :
    listHasPre p (p ++ rest) = true := by
  induction p with
  | nil => rfl
  | cons x xs ih => simp [listHasPre, ih]

/-- A pattern at the front is in particular a substring. -/
theorem listHasSub_of_hasPre (p s : List Char) (h : listHasPre p s = true) :
    listHasSub p s = true := by
  cases s with
  | nil =>
    cases p with
    | nil => rfl
    | cons x xs => simp [listHasPre] at h
  | cons c cs => simp [listHasSub, h]

/-- Substring occurrence is preserved by extending the text on the left. -/
theorem listHasSub_cons (p : List Char) (c : Char) (cs : List Char)
    (h : listHasSub p cs = true) : listHasSub p (c :: cs) = true := by
  simp [listHasSub, h]

/-- Substring occurrence is preserved by prepending any text. -/
theorem listHasSub_append (p a s : List Char) (h : listHasSub p s = true) :
    listHasSub p (a ++ s) = true := by
  induction a with
  | nil => simpa using h
  | cons x xs ih => exact listHasSub_cons _ _ _ ih

/-- A pattern occurs in any text of the shape `a ++ (pattern ++ b)`. -/
theorem listHasSub_middle (a p b : List Char) :
    listHasSub p (a ++ (p ++ b)) = true :=
  listHasSub_append _ _ _ (listHasSub_of_hasPre _ _ (listHasPre_self_append p b))

/-- Characters of an appended string. -/
theorem strData_append (s t : String) : (s ++ t).data = s.data ++ t.data := by
  cases s; cases t; rfl

/-- A string whose characters decompose around the pattern contains it. -/
theorem strIncludes_parts (s pat : String) (x y : List Char)
    (h : s.data = x ++ (pat.data ++ y)) : strIncludes s pat = true := by
  unfold strIncludes
  rw [h]
  exact listHasSub_middle _ _ _

/-- String lists are read back exactly. -/
theorem decodeStrList_encodeStrList (l : List String) :
    decodeStrList (encodeStrList l) = some l := by
  induction l with
  | nil => rfl
  | cons x xs ih =>
    simp only [decodeStrList, encodeStrList, List.map_cons, optMapList] at *
    simp [ih]

/-- Steps are read back exactly. -/
theorem decodeStep_encodeStep (s : Step) : decodeStep (encodeStep s) = some s := by
  rcases s with ⟨ins, tip, dur⟩
  cases tip <;> cases dur <;>
    simp [decodeStep, encodeStep, jGet, findField, encodeOptField, asStr]

/-- Step lists are read back exactly. -/
theorem optMapList_decodeStep_encodeStep (l : List Step) :
    optMapList decodeStep (l.map encodeStep) = some l := by
  induction l with
  | nil => rfl
  | cons x xs ih => simp [optMapList, decodeStep_encodeStep, ih]

/-- A serialized Recipe is read back field-for-field identical. -/
theorem decodeRecipe_encodeRecipe (r : Recipe) :
    decodeRecipe (encodeRecipe r) = some r := by
  rcases r with ⟨title, description, cuisineStyle, difficulty, totalTime,
    ingredientsFound, pantryItemsNeeded, steps, id, createdAt, constraints⟩
  cases cuisineStyle <;> cases totalTime <;> cases pantryItemsNeeded <;>
    simp [decodeRecipe, encodeRecipe, jGet, findField, encodeOptField, asStr,
      asNum, decodeStrList_encodeStrList, optMapList_decodeStep_encodeStep,
      decodeOptStrList]

/-- A serialized History is read back exactly. -/
theorem decodeHistory_encodeHistory (l : List Recipe) :
    decodeHistory (encodeHistory l) = some l := by
  simp only [decodeHistory, encodeHistory]
  induction l with
  | nil => rfl
  | cons x xs ih => simp [optMapList, decodeRecipe_encodeRecipe, ih]

/-- C1: a call to recipe generation with exactly 3 images, no audio and no
text prompt assembles exactly 3 image parts tagged `image/jpeg`, then the
single default-instruction text part, then the fixed final analysis
instruction part, in that order and nothing else. -/
theorem c1_three_images_request_shape (i1 i2 i3 : String)
    (amime : Option String) (cons : List String) :
    buildParts [i1, i2, i3] none amime none cons =
      [imagePart i1, imagePart i2, imagePart i3,
       { text := some ("I have these ingredients. " ++ constraintText cons ++
                       " Make me something delicious.") },
       finalPart] := by
  simp [buildParts, derivedText, optTruthy]

/-- C2 counterexample: with constraints `["No Stove"]` and neither audio nor
text prompt, the text part of the assembled request (its first part here) is
the default instruction with the directive embedded in the middle: the
directive does not appear at the start of the text part, refuting the
claimed prefixing. -/
theorem c2_counterexample_directive_not_at_start :
    (buildParts [] none none none ["No Stove"]).head? =
      some { text := some (derivedText none none ["No Stove"]) } ∧
    strStarts (derivedText none none ["No Stove"])
      (constraintText ["No Stove"]) = false ∧
    constraintText ["No Stove"] ≠ "" := by
  refine ⟨rfl, by decide, by decide⟩

/-- C2 (amended): for every call with a non-empty constraints list, the
single derived text part of the assembled request contains the constraint
directive as a contiguous substring (at the start only in the
audio-without-text case). -/
theorem c2_constraint_directive_in_text (images : List String)
    (audioBase64 amime tp : Option String) (cons : List String)
    (h : cons ≠ []) :
    buildParts images audioBase64 amime tp cons =
      images.map imagePart ++
        (if optTruthy audioBase64 then
          [{ inlineData := some { mimeType := audioMimeOf amime,
                                  data := audioBase64.getD "" } }]
        else []) ++
        [{ text := some (derivedText audioBase64 tp cons) }, finalPart] ∧
    strIncludes (derivedText audioBase64 tp cons) (constraintText cons) = true := by
  refine ⟨rfl, ?_⟩
  unfold derivedText
  by_cases htp : optTruthy tp = true
  · rw [if_pos htp]
    exact strIncludes_parts _ _
      (("User text request: \"" ++ tp.getD "" ++ "\". ").data)
      (" Create a recipe based on this.".data)
      (by simp [strData_append, List.append_assoc])
  · rw [if_neg htp]
    by_cases ha : optTruthy audioBase64 = true
    · rw [if_neg (by simp [ha])]
      exact strIncludes_parts _ _ [] []
        (by simp)
    · rw [if_pos (by simp [Bool.not_eq_true] at ha ⊢; exact ha)]
      exact strIncludes_parts _ _
        ("I have these ingredients. ".data)
        (" Make me something delicious.".data)
        (by simp [strData_append, List.append_assoc])

/-- Witness for C2 (amended) at a concrete input. -/
theorem c2_constraint_directive_in_text_witness :
    (["No Stove"] : List String) ≠ [] ∧
    (buildParts [] none none none ["No Stove"] =
      ([] : List String).map imagePart ++
        (if optTruthy none then
          [{ inlineData := some { mimeType := audioMimeOf none,
                                  data := (none : Option String).getD "" } }]
        else []) ++
        [{ text := some (derivedText none none ["No Stove"]) }, finalPart] ∧
     strIncludes (derivedText none none ["No Stove"])
       (constraintText ["No Stove"]) = true) :=
  ⟨by decide, c2_constraint_directive_in_text [] none none none ["No Stove"] (by decide)⟩

/-- C3: when audio is present (truthy) and no text prompt is supplied, the
assembled request is the image parts, the audio part, a text part that is
exactly the constraint text, then the final instruction — and the
constraint text is the empty string when constraints is empty, so neither
the text-prompt template nor the default instruction occurs. -/
theorem c3_audio_without_text_prompt (images : List String) (a : String)
    (amime : Option String) (cons : List String) (h : a ≠ "") :
    buildParts images (some a) amime none cons =
      images.map imagePart ++
        ({ inlineData := some { mimeType := audioMimeOf amime, data := a } } ::
         [{ text := some (constraintText cons) }, finalPart]) ∧
    (cons = [] → constraintText cons = "") := by
  constructor
  · have ht : optTruthy (some a) = true := by simp [optTruthy, h]
    simp [buildParts, derivedText, optTruthy, ht, h]
  · intro hc
    simp [constraintText, hc]

/-- Witness for C3 at a concrete input. -/
theorem c3_audio_without_text_prompt_witness :
    ("QUJD" : String) ≠ "" ∧
    (buildParts ["img1"] (some "QUJD") (some "audio/webm") none [] =
      (["img1"] : List String).map imagePart ++
        ({ inlineData := some { mimeType := audioMimeOf (some "audio/webm"),
                                data := "QUJD" } } ::
         [{ text := some (constraintText []) }, finalPart]) ∧
     (([] : List String) = [] → constraintText [] = "")) :=
  ⟨by decide, c3_audio_without_text_prompt ["img1"] "QUJD" (some "audio/webm") [] (by decide)⟩

/-- C4: with the credential absent (empty key), every gateway operation
fails with the `API Key missing` error and sends nothing to the provider,
whatever the provider would have answered. -/
theorem c4_missing_key_fails_without_network (key : Option String)
    (jp : String → Except String RawRecipe) (fid : String) (now : Nat)
    (images : List String) (a amime tp : Option String) (cons : List String)
    (title description txt : String) (p1 p2 p3 : Except String GenResponse)
    (h : getApiKey key = "") :
    generateRecipeFromInput jp key fid now images a amime tp cons p1 =
      ⟨none, Except.error "API Key missing"⟩ ∧
    generateDishImage key title description p2 =
      ⟨none, Except.error "API Key missing"⟩ ∧
    generateTTS key txt p3 = ⟨none, Except.error "API Key missing"⟩ := by
  refine ⟨?_, ?_, ?_⟩ <;>
    simp [generateRecipeFromInput, generateDishImage, generateTTS, h]

/-- Witness for C4 with the environment variable absent. -/
theorem c4_missing_key_fails_without_network_witness :
    getApiKey none = "" ∧
    (generateRecipeFromInput (fun _ => Except.error "e") none "id0" 0 []
        none none none [] (Except.error "boom") =
      ⟨none, Except.error "API Key missing"⟩ ∧
    generateDishImage none "Cake" "Sweet" (Except.error "boom") =
      ⟨none, Except.error "API Key missing"⟩ ∧
    generateTTS none "hello" (Except.error "boom") =
      ⟨none, Except.error "API Key missing"⟩) :=
  ⟨rfl, c4_missing_key_fails_without_network none (fun _ => Except.error "e")
    "id0" 0 [] none none none [] "Cake" "Sweet" "hello"
    (Except.error "boom") (Except.error "boom") (Except.error "boom") rfl⟩

/-- C5: the controller's error classifier agrees with the spec's
first-match-wins classification over the ordered categories
credential-missing, empty-response/content-blocked, network/fetch, JSON,
with the fallback `The Muse was silent.`, each title paired with its fixed
detail string. -/
theorem c5_classifier_matches_spec_order (m : String) :
    classify m = classifySpec m := by
  cases h1 : strIncludes m "API Key" <;>
  cases h2 : strIncludes m "No response generated" <;>
  cases h3 : strIncludes m "Candidate was blocked" <;>
  cases h4 : strIncludes m "fetch" <;>
  cases h5 : strIncludes m "network" <;>
  cases h6 : strIncludes m "JSON" <;>
  simp [classify, classifySpec, specErrorCategories, firstMatching,
    specFallback, h1, h2, h3, h4, h5, h6]

/-- C6: the failure transition leaves the in-memory History and the
persisted History exactly as they were, and the success transition mutates
History exactly by prepending the new Recipe and rewriting the persisted
copy in full. -/
theorem c6_history_mutated_only_on_success (st : AppS) (e : String)
    (r : Recipe) :
    (handleCapture st (Except.error e)).history = st.history ∧
    (handleCapture st (Except.error e)).persisted = st.persisted ∧
    (handleCapture st (Except.ok r)).history = r :: st.history ∧
    (handleCapture st (Except.ok r)).persisted =
      some (encodeHistory (r :: st.history)) :=
  ⟨rfl, rfl, rfl, rfl⟩

/-- C7 counterexample: a response in which a (second) content part contains
an audio payload, yet `generateTTS` fails with the no-audio error because
it reads only the first part of the first candidate — refuting "returns the
first audio payload found anywhere" and "fails exactly when no part
contains an audio payload". -/
theorem c7_counterexample_second_part_ignored :
    (((c7Response.candidates.getD []).head?.bind Candidate.parts).getD
        []).any (fun p =>
          match p.inlineData with
          | some d => d.data != ""
          | none => false) = true ∧
    (generateTTS (some "k") "hello" (Except.ok c7Response)).result =
      Except.error "No audio generated" := by
  refine ⟨by decide, by
    simp [generateTTS, c7Response, c7Candidate, c7TextPart, getApiKey,
      Option.bind]⟩

/-- C7 (amended): with the credential present, `generateTTS` consults only
the first part of the first candidate: it returns that part\x27s inline
payload when present and truthy and fails with the no-audio error
otherwise, independently of all later parts and candidates. -/
theorem c7_speech_uses_only_first_slot (key : Option String) (txt : String)
    (resp : GenResponse) (c : Candidate) (cs : List Candidate)
    (p : RPart) (ps : List RPart)
    (hk : getApiKey key ≠ "") (hc : resp.candidates = some (c :: cs))
    (hp : c.parts = some (p :: ps)) :
    (generateTTS key txt (Except.ok resp)).result =
      match p.inlineData with
      | some d => if d.data != "" then Except.ok d.data
                  else Except.error "No audio generated"
      | none => Except.error "No audio generated" := by
  unfold generateTTS
  rw [if_neg hk]
  cases hpi : p.inlineData with
  | none => simp [hc, hp, hpi, Option.bind]
  | some d =>
    by_cases hd : d.data = "" <;>
      simp [hc, hp, hpi, Option.bind, hd, bne_iff_ne]

/-- Witness for C7 (amended) at the concrete two-part response. -/
theorem c7_speech_uses_only_first_slot_witness :
    getApiKey (some "k") ≠ "" ∧
    c7Response.candidates = some [c7Candidate] ∧
    c7Candidate.parts = some [c7TextPart, c7AudioPart] ∧
    (generateTTS (some "k") "hello" (Except.ok c7Response)).result =
      match c7TextPart.inlineData with
      | some d => if d.data != "" then Except.ok d.data
                  else Except.error "No audio generated"
      | none => Except.error "No audio generated" :=
  ⟨by decide, rfl, rfl,
   c7_speech_uses_only_first_slot (some "k") "hello" c7Response c7Candidate []
     c7TextPart [c7AudioPart] (by decide) rfl rfl⟩

/-- C8: when the credential is present, the provider call succeeds, its
text is truthy and parses, the returned Recipe is exactly the parsed
object extended with the fresh id, the current-time `createdAt`, and the
caller's constraints list. -/
theorem c8_success_result_is_enriched_parse
    (jp : String → Except String RawRecipe) (key : Option String)
    (fid : String) (now : Nat) (images : List String)
    (a amime tp : Option String) (cons : List String) (resp : GenResponse)
    (t : String) (raw : RawRecipe)
    (hk : getApiKey key ≠ "") (ht : resp.text = some t) (ht2 : t ≠ "")
    (hp : jp t = Except.ok raw) :
    (generateRecipeFromInput jp key fid now images a amime tp cons
        (Except.ok resp)).result =
      Except.ok { title := raw.title, description := raw.description,
                  cuisineStyle := raw.cuisineStyle,
                  difficulty := raw.difficulty, totalTime := raw.totalTime,
                  ingredientsFound := raw.ingredientsFound,
                  pantryItemsNeeded := raw.pantryItemsNeeded,
                  steps := raw.steps, id := fid, createdAt := now,
                  constraints := cons } := by
  simp [generateRecipeFromInput, hk, ht, optTruthy, ht2, bne_iff_ne, hp,
    enrich]

/-- Witness for C8 at a concrete parse and environment. -/
theorem c8_success_result_is_enriched_parse_witness :
    getApiKey (some "k") ≠ "" ∧
    ({ text := some "{}" } : GenResponse).text = some "{}" ∧
    ("{}" : String) ≠ "" ∧
    (fun _ => Except.ok c8Raw : String → Except String RawRecipe) "{}" =
      Except.ok c8Raw ∧
    (generateRecipeFromInput (fun _ => Except.ok c8Raw) (some "k") "uuid-1"
        111 ["img"] none none none ["No Stove"]
        (Except.ok { text := some "{}" })).result =
      Except.ok { title := c8Raw.title, description := c8Raw.description,
                  cuisineStyle := c8Raw.cuisineStyle,
                  difficulty := c8Raw.difficulty,
                  totalTime := c8Raw.totalTime,
                  ingredientsFound := c8Raw.ingredientsFound,
                  pantryItemsNeeded := c8Raw.pantryItemsNeeded,
                  steps := c8Raw.steps, id := "uuid-1", createdAt := 111,
                  constraints := ["No Stove"] } :=
  ⟨by decide, rfl, by decide, rfl,
   c8_success_result_is_enriched_parse (fun _ => Except.ok c8Raw) (some "k")
     "uuid-1" 111 ["img"] none none none ["No Stove"]
     { text := some "{}" } "{}" c8Raw (by decide) rfl (by decide) rfl⟩

/-- C9: a Recipe returned by a successful generation, serialized into the
persisted History by the success transition and reloaded as at startup, is
field-for-field identical to the original — in particular `id` and
`createdAt` are unchanged — and so is every previously stored Recipe. -/
theorem c9_persisted_history_round_trip (st : AppS) (r : Recipe) :
    loadHistory ((handleCapture st (Except.ok r)).persisted) =
      r :: st.history ∧
    (loadHistory ((handleCapture st (Except.ok r)).persisted)).head? =
      some r := by
  have h : loadHistory (some (encodeHistory (r :: st.history))) =
      r :: st.history := by
    simp [loadHistory, decodeHistory_encodeHistory]
  exact ⟨h, by rw [show (handleCapture st (Except.ok r)).persisted =
    some (encodeHistory (r :: st.history)) from rfl, h]; rfl⟩

/-- C10: the failure transition of a generation changes only the error
title, the error details and the screen state (to the error screen); the
current Recipe — like the History and the persisted store — is exactly what
it was before. -/
theorem c10_failure_changes_only_error_fields (st : AppS) (e : String) :
    handleCapture st (Except.error e) =
      { st with error := some (classify e).1,
                errorDetails := some (classify e).2,
                appState := AppState.ERROR } ∧
    (handleCapture st (Except.error e)).recipe = st.recipe :=
  ⟨rfl, rfl⟩
